import Mathlib

/-!
Verification development for the IntelliSecureX repository.

The file gives a shallow embedding, in Lean, of the parts of the code that the
specification talks about:

* the quota / subscription gate of `server/storage.ts` and the `/api/search`
  handler of `server/routes.ts` (daily counter reset, premium check, daily
  limit, counter increment);
* the IntelX OSINT client of `server/services/intelx.ts` (the second, current
  class definition in that file: search parameters, proxy rotation, the
  two-phase search protocol, result normalization, `extractPreview`,
  `formatDate`, `formatSource`, `calculateRiskLevel`, and `getRecord` with its
  `getFileContentDirectly` strategy);
* the proxy pool manager (`ProxyManager`) with its time-based and forced
  rotation;
* the `/api/crypto/verify-payment` handler of `server/routes.ts`.

Conventions of the embedding:

* JavaScript strings that are inspected or built character by character are
  modeled as `List Char` (abbreviated `Str`); short status labels such as
  `"active"` or `"confirmed"` that are only compared for equality stay `String`.
* Timestamps are `Int` milliseconds since the epoch (the value of
  `Date.prototype.getTime`).  An unparsable date (`new Date(s)` giving an
  Invalid Date, whose time value is `NaN`) is modeled as `Option Int = none`.
* Network calls are modeled by passing the outcome of the call as an explicit
  argument: either the thrown exception's message or the HTTP response
  (status plus payload).  Code that `throw`s is modeled with `Except`;
  `try`/`catch` becomes a `match` on the `Except`.
* SQL `UPDATE ... WHERE` with a comparison on a nullable timestamp follows
  SQL three-valued logic: a `NULL` comparison does not match the row.
-/

abbrev Str := List Char

/-- Milliseconds in 24 hours, the window used by the daily-counter reset
(`24 * 60 * 60 * 1000` in `server/storage.ts`). -/
def millisPerDay : Int := 24 * 60 * 60 * 1000

/-- A row of the `users` table, restricted to the fields the quota and
subscription logic reads (`shared/schema.ts`): `daily_query_count` is
`integer ... .default(0).notNull()`, `last_query_reset` and
`subscription_expires_at` are nullable timestamps, `subscription_status`
is a varchar defaulting to `"free"`. -/
structure UserRec where
  id : String
  subscriptionStatus : String
  subscriptionExpiresAt : Option Int
  dailyQueryCount : Nat
  lastQueryReset : Option Int
deriving DecidableEq, Repr

/-- `DatabaseStorage.resetDailyQueryCountIfNeeded` (`server/storage.ts`
lines 91-109).  The source issues

`UPDATE users SET daily_query_count = 0, last_query_reset = now
 WHERE id = userId AND last_query_reset >= (now - 24h)`

so the row is zeroed exactly when the stored `last_query_reset` matches the
`gte(users.lastQueryReset, yesterday)` condition; when the `WHERE` clause
matches no row the function falls back to `getUser` and returns the user
unchanged.  A `NULL` `last_query_reset` never satisfies the SQL comparison. -/
def resetDailyQueryCountIfNeeded (u : UserRec) (now : Int) : UserRec :=
  let yesterday := now - millisPerDay
  match u.lastQueryReset with
  | some t =>
      if t ≥ yesterday then
        { u with dailyQueryCount := 0, lastQueryReset := some now }
      else u
  | none => u

/-- `DatabaseStorage.incrementDailyQueryCount` (`server/storage.ts` lines
79-89): `SET daily_query_count = daily_query_count + 1`. -/
def incrementDailyQueryCount (u : UserRec) : UserRec :=
  { u with dailyQueryCount := u.dailyQueryCount + 1 }

/-- The premium check of `server/routes.ts` (lines 73-74):
`user.subscriptionStatus === 'active' && (!user.subscriptionExpiresAt ||
user.subscriptionExpiresAt > now)`.  A `null` expiry is falsy, so it counts
as "no expiry". -/
def isPremiumAt (u : UserRec) (now : Int) : Bool :=
  u.subscriptionStatus == "active" &&
    (match u.subscriptionExpiresAt with
     | none => true
     | some e => e > now)

/-- The HTTP responses the `/api/search` handler can produce
(`server/routes.ts` lines 49-108). -/
inductive SearchResponse where
  | badRequest (msg : String)
  | tooMany (msg : String) (remainingQueries : Nat)
  | ok (remainingQueries : Option Nat) (isPremiumFlag : Bool)
  | serverError (msg : String)
deriving DecidableEq, Repr

/-- What one run of the `/api/search` handler produces: the HTTP response,
the user row as it stands after the run, and whether
`intelxService.search` was invoked. -/
structure SearchHandlerOut where
  response : SearchResponse
  finalUser : UserRec
  upstreamCalled : Bool
deriving DecidableEq, Repr

/-- The `/api/search` handler of `server/routes.ts` (lines 49-108), with the
upstream `intelxService.search` call abstracted to its outcome
(`Except.error` = the awaited promise rejected, landing in the `catch`
block that answers 500 `"Search failed"`).  Steps, in source order:
validate `queryType`/`queryTerm`; `resetDailyQueryCountIfNeeded`; compute
`isPremium`; refuse with 429 and `remainingQueries: 0` when a free user's
counter has reached `FREE_DAILY_LIMIT = 3`; call the upstream search;
increment the counter for non-premium users; answer with
`remainingQueries = max(0, 3 - dailyQueryCount)` of the updated user. -/
def searchHandler (queryType queryTerm : String) (u : UserRec) (now : Int)
    (upstream : Except String Unit) : SearchHandlerOut :=
  if queryType = "" ∨ queryTerm = "" then
    ⟨.badRequest "Query type and term are required", u, false⟩
  else if queryType ∉ ["domain", "ip", "email", "hash"] then
    ⟨.badRequest "Invalid query type", u, false⟩
  else
    let u1 := resetDailyQueryCountIfNeeded u now
    let prem := isPremiumAt u1 now
    if prem = false ∧ 3 ≤ u1.dailyQueryCount then
      ⟨.tooMany "Daily query limit reached. Upgrade to Premium for unlimited searches." 0,
        u1, false⟩
    else
      match upstream with
      | .error _ => ⟨.serverError "Search failed", u1, true⟩
      | .ok _ =>
          let u2 := if prem = false then incrementDailyQueryCount u1 else u1
          ⟨.ok (if prem then none else some (3 - u2.dailyQueryCount)) prem, u2, true⟩

/-- A free user whose `lastQueryReset` is 30 days in the past (far more than
24 hours old) and whose daily counter stands at 2. -/
def staleFreeUser : UserRec :=
  { id := "stale", subscriptionStatus := "free", subscriptionExpiresAt := none,
    dailyQueryCount := 2, lastQueryReset := some 0 }

/-- A free user whose `lastQueryReset` is exactly the evaluation time (well
within the last 24 hours) and whose daily counter stands at 2. -/
def freshFreeUser (now : Int) : UserRec :=
  { id := "fresh", subscriptionStatus := "free", subscriptionExpiresAt := none,
    dailyQueryCount := 2, lastQueryReset := some now }

/-- **C1.**  The staleness condition of `resetDailyQueryCountIfNeeded` is
inverted with respect to the claim: evaluated 30 days after a stale user's
`lastQueryReset` (so `lastReset < now - 24h` holds), the function leaves the
row completely unchanged (counter still 2), while a user whose `lastReset`
equals `now` — within the last 24 hours — has the counter zeroed and
`lastReset` restamped.  The claim demands exactly the opposite on both
inputs. -/
theorem resetDailyQueryCount_invertedStaleness :
    resetDailyQueryCountIfNeeded staleFreeUser (30 * millisPerDay) = staleFreeUser ∧
    staleFreeUser.lastQueryReset = some 0 ∧
    (0 : Int) < 30 * millisPerDay - millisPerDay ∧
    (resetDailyQueryCountIfNeeded (freshFreeUser (30 * millisPerDay))
        (30 * millisPerDay)).dailyQueryCount = 0 ∧
    (freshFreeUser (30 * millisPerDay)).dailyQueryCount = 2 := by
  refine ⟨?_, rfl, by decide, ?_, rfl⟩ <;> decide

/-- A free user who has exhausted the daily limit (counter 3) and whose
`lastQueryReset` equals the evaluation time. -/
def freeUserAtLimit (now : Int) : UserRec :=
  { id := "limit", subscriptionStatus := "free", subscriptionExpiresAt := none,
    dailyQueryCount := 3, lastQueryReset := some now }

/-- **C2.**  A free user with `dailyQueryCount = 3` issuing a 4th search is
*not* refused: because the inverted reset condition zeroes the fresh
counter first, the handler calls the upstream search (`upstreamCalled =
true`) and answers 200 with `remainingQueries = 2`, instead of the claimed
429 refusal with `remainingQueries = 0` and no upstream call. -/
theorem searchHandler_limitBypassed :
    (searchHandler "domain" "example.com" (freeUserAtLimit (30 * millisPerDay))
        (30 * millisPerDay) (.ok ())).upstreamCalled = true ∧
    (searchHandler "domain" "example.com" (freeUserAtLimit (30 * millisPerDay))
        (30 * millisPerDay) (.ok ())).response = .ok (some 2) false ∧
    (freeUserAtLimit (30 * millisPerDay)).dailyQueryCount = 3 ∧
    isPremiumAt (freeUserAtLimit (30 * millisPerDay)) (30 * millisPerDay) = false := by
  refine ⟨?_, ?_, rfl, ?_⟩ <;> decide

/-- **C3.**  A failed upstream search consumes no quota: for a valid query
from a non-premium user below the daily limit, the handler's final counter
on an upstream error equals the counter as it stood right before the
search (after the daily-reset step), the response is the 500 error, and on
a successful upstream search the counter is incremented by exactly 1. -/
theorem searchHandler_noConsumeOnFailure (qt qterm : String) (u : UserRec)
    (now : Int) (e : String)
    (hqt : qt ∈ ["domain", "ip", "email", "hash"]) (hterm : qterm ≠ "")
    (hfree : isPremiumAt (resetDailyQueryCountIfNeeded u now) now = false)
    (hbelow : (resetDailyQueryCountIfNeeded u now).dailyQueryCount < 3) :
    (searchHandler qt qterm u now (.error e)).finalUser.dailyQueryCount
      = (resetDailyQueryCountIfNeeded u now).dailyQueryCount ∧
    (searchHandler qt qterm u now (.error e)).response = .serverError "Search failed" ∧
    (searchHandler qt qterm u now (.ok ())).finalUser.dailyQueryCount
      = (resetDailyQueryCountIfNeeded u now).dailyQueryCount + 1 := by
  have hqt' : qt ≠ "" := by
    simp only [List.mem_cons, List.not_mem_nil, or_false] at hqt
    rcases hqt with h | h | h | h <;> subst h <;> decide
  have h3 : ¬ (3 ≤ (resetDailyQueryCountIfNeeded u now).dailyQueryCount) := by omega
  have hA : ¬ (qt = "" ∨ qterm = "") := by simp [hqt', hterm]
  have hB : ¬ (qt ∉ ["domain", "ip", "email", "hash"]) := not_not_intro hqt
  simp only [searchHandler, if_neg hA, if_neg hB, hfree, incrementDailyQueryCount]
  simp [h3]

/-- Witness for C3: a concrete free user with counter 1 and an untouched
(stale) `lastQueryReset`; the failed search leaves the counter at 1. -/
theorem searchHandler_noConsumeOnFailure_witness :
    (searchHandler "domain" "example.com"
        { id := "w", subscriptionStatus := "free", subscriptionExpiresAt := none,
          dailyQueryCount := 1, lastQueryReset := some 0 }
        (30 * millisPerDay) (.error "IntelX API error: 500")).finalUser.dailyQueryCount
      = (resetDailyQueryCountIfNeeded
          { id := "w", subscriptionStatus := "free", subscriptionExpiresAt := none,
            dailyQueryCount := 1, lastQueryReset := some 0 }
          (30 * millisPerDay)).dailyQueryCount := by
  exact (searchHandler_noConsumeOnFailure "domain" "example.com"
    { id := "w", subscriptionStatus := "free", subscriptionExpiresAt := none,
      dailyQueryCount := 1, lastQueryReset := some 0 }
    (30 * millisPerDay) "IntelX API error: 500"
    (by decide) (by decide) (by decide) (by decide)).1

/-- JavaScript whitespace as used by `String.prototype.trim` on the
characters that occur in this code base. -/
def isJsSpace (c : Char) : Bool :=
  c == ' ' || c == '\t' || c == '\n' || c == '\r'

/-- `String.prototype.trim`: strip leading and trailing whitespace. -/
def jsTrim (s : Str) : Str :=
  ((s.dropWhile isJsSpace).reverse.dropWhile isJsSpace).reverse

/-- Decimal rendering of a number, as template-literal interpolation does. -/
def natStr (n : Nat) : Str := (Nat.repr n).data

/-- JavaScript `a || b` for a possibly-undefined number: `undefined` and `0`
are falsy.  Used for `searchData.statistics?.total || records.length || 0`. -/
def jsOrNat (a : Option Nat) (b : Nat) : Nat :=
  match a with
  | some n => if n = 0 then b else n
  | none => b

/-- The fixed message `extractPreview` answers for missing or blank contents
(`server/services/intelx.ts` line 471). -/
def previewUnavailableMsg : Str :=
  "Vista previa no disponible - haz clic para ver detalles".data

/-- The continuation marker `extractPreview` appends to a truncated preview
(`server/services/intelx.ts` line 476). -/
def previewContinuation : Str :=
  "\n\n[...continúa - haz clic para ver más]".data

/-- `IntelXService.extractPreview` (`server/services/intelx.ts` lines
469-477): blank contents give the fixed unavailable message; otherwise the
preview is `contents.substring(0, 300).trim()` with the continuation marker
appended exactly when `contents.length > 300`. -/
def extractPreview (content : Str) : Str :=
  if content = [] ∨ (jsTrim content).length = 0 then previewUnavailableMsg
  else
    jsTrim (content.take 300) ++
      (if 300 < content.length then previewContinuation else [])

/-- `IntelXService.formatDate` (`server/services/intelx.ts` lines 479-495).
The argument is the time value of `new Date(dateString)`: `some t` for a
parsable date, `none` for an Invalid Date (whose time value is `NaN`).
`new Date` never throws, so the `catch { return 'Unknown' }` branch is
unreachable; on `NaN` every comparison in the `if` chain is false and the
final template renders `Math.floor(NaN / 365)` as `"NaN"`. -/
def formatDate (timeValue : Option Int) (now : Int) : Str :=
  match timeValue with
  | none => "NaN years ago".data
  | some t =>
      let diffDays : Nat := (now - t).natAbs / (1000 * 60 * 60 * 24)
      if diffDays = 0 then "Today".data
      else if diffDays = 1 then "1 day ago".data
      else if diffDays < 7 then natStr diffDays ++ " days ago".data
      else if diffDays < 30 then natStr (diffDays / 7) ++ " weeks ago".data
      else if diffDays < 365 then natStr (diffDays / 30) ++ " months ago".data
      else natStr (diffDays / 365) ++ " years ago".data

/-- `IntelXService.formatSource` (`server/services/intelx.ts` lines 497-505):
fixed label lookup keyed by bucket, defaulting to the raw bucket name. -/
def formatSource (bucket : Str) : Str :=
  if bucket = "pastes".data then "Paste Sites".data
  else if bucket = "leaks".data then "Data Breaches".data
  else if bucket = "public".data then "Public Records".data
  else if bucket = "darknet".data then "Dark Web".data
  else bucket

/-- `IntelXService.calculateRiskLevel` (`server/services/intelx.ts` lines
507-512). -/
def calculateRiskLevel (bucket ty : Str) : Str :=
  if bucket = "leaks".data then "High".data
  else if bucket = "darknet".data then "High".data
  else if bucket = "pastes".data ∧ ty = "email".data then "Medium".data
  else "Low".data

/-- The search-submission body built by `IntelXService.search`
(`server/services/intelx.ts` lines 260-270), "simplified for free API":
`{term, lookuplevel: 0, maxresults: 1000, timeout: null, datefrom: "",
dateto: "", sort: 2, media: 0, terminate: []}`. -/
structure SearchParams where
  term : Str
  lookuplevel : Nat
  maxresults : Nat
  timeout : Option Nat
  datefrom : Str
  dateto : Str
  sort : Nat
  media : Nat
deriving DecidableEq, Repr

/-- Construction of the submit body inside `search(term, type, isPremium)`:
the current client fills every field with a constant; in particular
`maxresults` is always `1000` and the `isPremium` argument is not
consulted. -/
def mkSearchParams (term : Str) (isPremium : Bool) : SearchParams :=
  { term := term, lookuplevel := 0, maxresults := 1000, timeout := none,
    datefrom := [], dateto := [], sort := 2, media := 0 }

/-- One entry of the static pool in `ProxyManager.initializeProxies`. -/
structure ProxyEndpoint where
  host : Str
  port : Nat
  protocol : Str
deriving DecidableEq, Repr

/-- The static proxy pool of `ProxyManager.initializeProxies`
(`server/services/proxyManager.ts`). -/
def initialProxies : List ProxyEndpoint :=
  [⟨"47.74.152.29".data, 8888, "http".data⟩,
   ⟨"43.134.234.74".data, 80, "http".data⟩,
   ⟨"103.149.162.194".data, 80, "http".data⟩,
   ⟨"20.206.106.192".data, 80, "http".data⟩,
   ⟨"85.8.68.2".data, 80, "http".data⟩,
   ⟨"109.201.152.72".data, 80, "http".data⟩,
   ⟨"177.124.168.81".data, 8080, "http".data⟩,
   ⟨"195.23.57.78".data, 80, "http".data⟩,
   ⟨"52.79.149.164".data, 80, "http".data⟩,
   ⟨"165.225.77.47".data, 80, "http".data⟩]

/-- The process-wide mutable state of `ProxyManager`: the pool, the current
rotation index, and the time of the last time-based rotation. -/
structure ProxyState where
  proxies : List ProxyEndpoint
  currentProxyIndex : Nat
  lastRotation : Int
deriving DecidableEq, Repr

/-- `rotationInterval = 5 * 60 * 1000` (rotate every 5 minutes). -/
def rotationInterval : Int := 5 * 60 * 1000

/-- `ProxyManager.rotateProxy`: time-based rotation — advance the index
(wrapping modulo the pool size) when more than `rotationInterval` has
elapsed since the last rotation. -/
def rotateProxy (s : ProxyState) (now : Int) : ProxyState :=
  if now - s.lastRotation > rotationInterval then
    { s with currentProxyIndex := (s.currentProxyIndex + 1) % s.proxies.length,
             lastRotation := now }
  else s

/-- `ProxyManager.forceRotate`: unconditionally advance the index, wrapping
modulo the pool size (`this.currentProxyIndex = (this.currentProxyIndex + 1)
% this.proxies.length`); `lastRotation` is not touched. -/
def forceRotate (s : ProxyState) : ProxyState :=
  { s with currentProxyIndex := (s.currentProxyIndex + 1) % s.proxies.length }

/-- `ProxyManager.getCurrentProxy`: run the time-based rotation, then return
the proxy at the current index (`|| null` when the pool is empty). -/
def getCurrentProxy (s : ProxyState) (now : Int) : ProxyState × Option ProxyEndpoint :=
  let s1 := rotateProxy s now
  (s1, s1.proxies.get? s1.currentProxyIndex)

/-- A raw record of the upstream search-result payload (`IntelXResult`),
restricted to the fields `formatResults` reads.  `addedTime` is the time
value of `new Date(record.added)` (`none` for an unparsable date),
`addedRaw` the raw `added` string copied into the output. -/
structure UpstreamRecord where
  systemid : Str
  storageid : Option Str
  bucket : Str
  addedRaw : Str
  addedTime : Option Int
  name : Str
  size : Nat
  media : Str
  contents : Option Str
deriving DecidableEq, Repr

/-- The parsed body of the results fetch: `records`, and the optional
`statistics` object (`statistics?.total`, `statistics?.buckets`). -/
structure FetchData where
  records : List UpstreamRecord
  statTotal : Option Nat
  statBuckets : Option (List (Str × Nat))
deriving DecidableEq, Repr

/-- Outcome of one `fetch` round trip: either the awaited promise rejected
(`throwEx` carries the exception's message, covering network failures and
failures while reading the body), or an HTTP response arrived with a
status, the error body text (what `response.text()` yields on the non-ok
paths) and the parsed payload. -/
inductive FetchOutcome (α : Type) where
  | throwEx (msg : Str)
  | resp (status : Nat) (errText : Str) (payload : α)
deriving DecidableEq, Repr

/-- The errors `IntelXService.search` can throw: an upstream non-2xx
response (`IntelX API error: <status> - <body>`), a missing search id, or
a rethrown exception. -/
inductive SearchErr where
  | api (status : Nat) (body : Str)
  | noSearchId
  | net (msg : Str)
deriving DecidableEq, Repr

/-- The normalized result shape built by `formatResults`
(`server/services/intelx.ts` lines 451-467). -/
structure NormalizedResult where
  id : Str
  storageId : Str
  rtype : Str
  term : Str
  bucket : Str
  added : Str
  size : Nat
  media : Str
  contents : Option Str
  preview : Str
  lastSeen : Str
  source : Str
  riskLevel : Str
deriving DecidableEq, Repr

/-- Normalization of one record (the `records.map` body of `formatResults`):
`storageId` is `record.storageid || record.systemid` (an empty string is
falsy), `preview` comes from `extractPreview(record.contents || '')`, and
`lastSeen`, `source`, `riskLevel` from the pure helpers. -/
def formatRecord (now : Int) (ty : Str) (r : UpstreamRecord) : NormalizedResult :=
  { id := r.systemid,
    storageId := match r.storageid with
      | some s => if s = [] then r.systemid else s
      | none => r.systemid,
    rtype := ty,
    term := r.name,
    bucket := r.bucket,
    added := r.addedRaw,
    size := r.size,
    media := r.media,
    contents := r.contents,
    preview := extractPreview (r.contents.getD []),
    lastSeen := formatDate r.addedTime now,
    source := formatSource r.bucket,
    riskLevel := calculateRiskLevel r.bucket ty }

/-- `IntelXService.formatResults`. -/
def formatResults (records : List UpstreamRecord) (ty : Str) (now : Int) :
    List NormalizedResult :=
  records.map (formatRecord now ty)

/-- The value `search` resolves with on success: `{results, total, buckets}`
where `total = statistics?.total || records.length || 0` and
`buckets = statistics?.buckets || {}`. -/
structure SearchOk where
  results : List NormalizedResult
  total : Nat
  buckets : List (Str × Nat)
deriving DecidableEq, Repr

/-- `IntelXService.search` of the current client
(`server/services/intelx.ts` lines 257-375), as a function of the proxy
state and of the outcomes of the two upstream round trips.

Source order: build the submit body (`mkSearchParams`); take the current
proxy agent once (`proxyManager.createProxyAgent()`, which runs the
time-based rotation) and reuse it for both phases; POST the submit — on a
non-ok response call `proxyManager.forceRotate()` exactly when the status
is 429 or 403, then throw `IntelX API error: <status> - <errorText>`
(the outer `catch` rethrows, so no retry happens inside this call); a
missing `searchInit.id` is a protocol violation; GET the results — a
non-ok response throws the same way but never rotates; on success
normalize the records.

The success branch of the source prefers `formatResultsWithPreviews`,
which only differs from `formatResults` by fetching replacement preview
text for up to the first three records whose `contents` is empty and which
falls back to `formatResults` on any error; the fallback path is what is
modeled here. -/
def search (st : ProxyState) (now : Int) (term ty : Str) (isPremium : Bool)
    (submit : FetchOutcome (Option Str)) (resultsFetch : FetchOutcome FetchData) :
    ProxyState × Except SearchErr SearchOk :=
  let _params := mkSearchParams term isPremium
  let st1 := (getCurrentProxy st now).1
  match submit with
  | .throwEx m => (st1, .error (.net m))
  | .resp status errText idOpt =>
      if ¬ (200 ≤ status ∧ status ≤ 299) then
        let st2 := if status = 429 ∨ status = 403 then forceRotate st1 else st1
        (st2, .error (.api status errText))
      else
        match idOpt with
        | none => (st1, .error .noSearchId)
        | some _sid =>
            match resultsFetch with
            | .throwEx m => (st1, .error (.net m))
            | .resp status2 errText2 payload =>
                if ¬ (200 ≤ status2 ∧ status2 ≤ 299) then
                  (st1, .error (.api status2 errText2))
                else
                  (st1, .ok { results := formatResults payload.records ty now,
                              total := jsOrNat payload.statTotal payload.records.length,
                              buckets := payload.statBuckets.getD [] })

/-- The message built by the `catch` block of
`IntelXService.getFileContentDirectly` (`server/services/intelx.ts` lines
607-613): it interpolates the exception's message and the storage id —
and nothing else. -/
def errorAccessMsg (msg sid : Str) : Str :=
  "❌ Error al acceder al archivo\n\nError: ".data ++ msg ++
    ("\nStorage ID: ".data ++ sid)

/-- The message `getFileContentDirectly` returns on a non-ok preview
response (`server/services/intelx.ts` lines 580-589): status, storage id
and bucket. -/
def noContentMsg (status : Nat) (sid bucket : Str) : Str :=
  "📄 No se pudo obtener el contenido del archivo\n\nError: ".data ++
    natStr status ++
    ("\nStorage ID: ".data ++ sid ++
      ("\nBucket: ".data ++ bucket ++
        "\n\nPosibles causas:\n- Archivo requiere acceso premium\n- Contenido no disponible temporalmente\n- Limitaciones del servidor".data))

/-- The message `getFileContentDirectly` returns when the preview response
is ok but blank (`server/services/intelx.ts` lines 601-605). -/
def locatedNoPreviewMsg (sid bucket : Str) : Str :=
  "📋 Archivo localizado pero sin contenido de vista previa\n\nStorage ID: ".data ++
    sid ++
    ("\nBucket: ".data ++ bucket ++
      "\nEstado: Archivo encontrado pero contenido no disponible".data)

/-- `IntelXService.getFileContentDirectly` (`server/services/intelx.ts`
lines 540-614) as a function of the outcome of the file-preview fetch
(payload = `response.text()`):
a non-ok status yields the no-content message; an ok response with
non-blank text yields `previewContent.trim()`; an ok but blank response
yields the located-without-preview message; any exception thrown inside
the `try` (network failure, body read) is caught and converted into
`errorAccessMsg`.  Proxy-agent selection happens first in the source; it
does not influence the returned text and is elided here. -/
def getFileContentDirectly (storageId bucket : Str) (media : Nat)
    (f : FetchOutcome Str) : Str :=
  match f with
  | .throwEx msg => errorAccessMsg msg storageId
  | .resp status _ body =>
      if ¬ (200 ≤ status ∧ status ≤ 299) then noContentMsg status storageId bucket
      else if body ≠ [] ∧ 0 < (jsTrim body).length then jsTrim body
      else locatedNoPreviewMsg storageId bucket

/-- `IntelXService.getRecord` (`server/services/intelx.ts` lines 514-538):
it delegates to `getFileContentDirectly(systemId, bucket, 24)`.  Since
`getFileContentDirectly` returns on every path — its own `catch` absorbs
every exception of its `try` — the outer `try`/`catch` of `getRecord`
(whose message would mention the error, the record id *and* the bucket) is
unreachable, and `getRecord` coincides with the inner strategy. -/
def getRecord (systemId bucket : Str) (f : FetchOutcome Str) : Str :=
  getFileContentDirectly systemId bucket 24 f

/-- Substring test over character lists: `containsSeq needle hay` holds when
`needle` occurs contiguously in `hay` (the sense in which a built message
"contains" an interpolated fragment). -/
def containsSeq (needle hay : Str) : Bool :=
  match hay with
  | [] => needle.isEmpty
  | _ :: t => needle.isPrefixOf hay || containsSeq needle t

/-- A list is a prefix of itself followed by anything. -/
theorem isPrefixOf_append_self (n r : Str) : n.isPrefixOf (n ++ r) = true := by
  induction n with
  | nil => simp [List.isPrefixOf]
  | cons c cs ih => simp [List.isPrefixOf, ih]

/-- `containsSeq` holds whenever the needle is a prefix of the haystack. -/
theorem containsSeq_of_isPrefixOf {n h : Str} (hp : n.isPrefixOf h = true) :
    containsSeq n h = true := by
  cases h with
  | nil =>
      cases n with
      | nil => rfl
      | cons c cs => simp [List.isPrefixOf] at hp
  | cons c t => simp [containsSeq, hp]

/-- `containsSeq` is preserved by consing onto the haystack. -/
theorem containsSeq_cons {n t : Str} (c : Char) (hc : containsSeq n t = true) :
    containsSeq n (c :: t) = true := by
  simp [containsSeq, hc]

/-- `containsSeq` is preserved by prepending anything to the haystack. -/
theorem containsSeq_append_left (a : Str) {n rest : Str}
    (hc : containsSeq n rest = true) : containsSeq n (a ++ rest) = true := by
  induction a with
  | nil => simpa using hc
  | cons c cs ih => simpa using containsSeq_cons c ih

/-- A list occurs in itself followed by anything. -/
theorem containsSeq_self_append (n b : Str) : containsSeq n (n ++ b) = true :=
  containsSeq_of_isPrefixOf (isPrefixOf_append_self n b)

/-- A list occurs in itself. -/
theorem containsSeq_self (n : Str) : containsSeq n n = true := by
  simpa using containsSeq_self_append n []

/-- Appending cannot erase a nonempty left part. -/
theorem ne_nil_of_append_left {a : Str} (b : Str) (h : a ≠ []) : a ++ b ≠ [] := by
  simp [List.append_eq_nil, h]

/-- **C4 counterexample.**  When the preview fetch throws (here a plain
network failure `ECONNRESET`), the exception is caught inside
`getFileContentDirectly` and the returned message interpolates only the
error text and the storage id: the bucket (`leaks`) does not occur in the
returned string, refuting the conjunct that a caught exception's message
contains the bucket. -/
theorem getRecord_exceptionMessage_omitsBucket :
    getRecord "abc123".data "leaks".data (.throwEx "ECONNRESET".data)
      = errorAccessMsg "ECONNRESET".data "abc123".data ∧
    containsSeq "leaks".data
      (getRecord "abc123".data "leaks".data (.throwEx "ECONNRESET".data)) = false := by
  exact ⟨rfl, by decide⟩

/-- **C4 (amended).**  `getRecord` never throws and degrades to text: the
embedding is a total function, every outcome of the preview fetch —
caught exception, non-2xx response, blank body, or content — yields a
nonempty string; a caught exception's message contains the original error
text and the record id (not the bucket); a non-2xx response's message
contains the record id and the bucket. -/
theorem getRecord_degradesToText (sid bucket msg errText body : Str) (status : Nat) :
    (∀ f : FetchOutcome Str, getRecord sid bucket f ≠ []) ∧
    containsSeq msg (getRecord sid bucket (.throwEx msg)) = true ∧
    containsSeq sid (getRecord sid bucket (.throwEx msg)) = true ∧
    (¬ (200 ≤ status ∧ status ≤ 299) →
      containsSeq sid (getRecord sid bucket (.resp status errText body)) = true ∧
      containsSeq bucket (getRecord sid bucket (.resp status errText body)) = true) := by
  refine ⟨?_, ?_, ?_, ?_⟩
  · intro f
    rcases f with m | ⟨status2, e2, body2⟩
    · simp only [getRecord, getFileContentDirectly, errorAccessMsg]
      exact ne_nil_of_append_left _ (ne_nil_of_append_left _ (by decide))
    · simp only [getRecord, getFileContentDirectly]
      split
      · simp only [noContentMsg]
        exact ne_nil_of_append_left _ (ne_nil_of_append_left _ (by decide))
      · split
        · next hc => exact List.length_pos.mp hc.2
        · simp only [locatedNoPreviewMsg]
          exact ne_nil_of_append_left _ (ne_nil_of_append_left _ (by decide))
  · simp only [getRecord, getFileContentDirectly, errorAccessMsg, List.append_assoc]
    exact containsSeq_append_left _ (containsSeq_self_append _ _)
  · simp only [getRecord, getFileContentDirectly, errorAccessMsg, List.append_assoc]
    exact containsSeq_append_left _ (containsSeq_append_left _
      (containsSeq_append_left _ (containsSeq_self _)))
  · intro hnk
    simp only [getRecord, getFileContentDirectly, if_pos hnk, noContentMsg,
      List.append_assoc]
    constructor
    · exact containsSeq_append_left _ (containsSeq_append_left _
        (containsSeq_append_left _ (containsSeq_self_append _ _)))
    · exact containsSeq_append_left _ (containsSeq_append_left _
        (containsSeq_append_left _ (containsSeq_append_left _
          (containsSeq_append_left _ (containsSeq_self_append _ _)))))

/-- Witness for C4: a concrete 500 response; the returned message contains
both the record id and the bucket. -/
theorem getRecord_degradesToText_witness :
    containsSeq "id9".data (getRecord "id9".data "pastes".data (.resp 500 [] [])) = true ∧
    containsSeq "pastes".data (getRecord "id9".data "pastes".data (.resp 500 [] [])) = true :=
  (getRecord_degradesToText "id9".data "pastes".data [] [] [] 500).2.2.2 (by decide)

/-- **C5 counterexample.**  The current client's submit body carries
`maxresults: 1000` even for a non-premium search: for a free-tier request
the parameter is 1000, not at most 15 as claimed. -/
theorem mkSearchParams_freeNotCapped :
    (mkSearchParams "example.com".data false).maxresults = 1000 ∧
    ¬ ((mkSearchParams "example.com".data false).maxresults ≤ 15) :=
  ⟨rfl, by decide⟩

/-- **C5 (amended).**  The submitted `maxresults` equals 1000 for every term
and every premium flag: the `isPremium` argument of `search` is ignored by
the body construction. -/
theorem mkSearchParams_maxresults (term : Str) (p : Bool) :
    (mkSearchParams term p).maxresults = 1000 := rfl

/-- **C6.**  When the submit phase answers 429 or 403, the whole search
fails with the upstream error carrying that status, the shared rotation
index is advanced by `forceRotate` exactly once — one step, wrapping
modulo the pool size, on top of the state left by the initial
`createProxyAgent` call — and the result does not depend on the
results-fetch outcome (no retry and no second phase inside the call). -/
theorem search_rotatesOnceOn429or403 (st : ProxyState) (now : Int) (term ty : Str)
    (p : Bool) (status : Nat) (errText : Str) (idOpt : Option Str)
    (r1 r2 : FetchOutcome FetchData)
    (h : status = 429 ∨ status = 403) :
    search st now term ty p (.resp status errText idOpt) r1
      = (forceRotate (rotateProxy st now), .error (.api status errText)) ∧
    (forceRotate (rotateProxy st now)).currentProxyIndex
      = ((rotateProxy st now).currentProxyIndex + 1)
          % (rotateProxy st now).proxies.length ∧
    (forceRotate (rotateProxy st now)).proxies = (rotateProxy st now).proxies ∧
    search st now term ty p (.resp status errText idOpt) r1
      = search st now term ty p (.resp status errText idOpt) r2 := by
  have hnk : ¬ (200 ≤ status ∧ status ≤ 299) := by
    rcases h with h | h <;> subst h <;> decide
  refine ⟨?_, rfl, rfl, ?_⟩ <;>
    simp only [search, getCurrentProxy, if_pos hnk, if_pos h]

/-- Witness for C6: the initial proxy state (index 0, pool of 10) and a 429
submit response; the call fails with `api 429` and the index moves to 1. -/
theorem search_rotatesOnceOn429or403_witness :
    search ⟨initialProxies, 0, 0⟩ 0 "example.com".data "domain".data false
        (.resp 429 "rate limited".data none) (.throwEx [])
      = (forceRotate (rotateProxy ⟨initialProxies, 0, 0⟩ 0),
          .error (.api 429 "rate limited".data)) ∧
    (forceRotate (rotateProxy ⟨initialProxies, 0, 0⟩ 0)).currentProxyIndex = 1 := by
  have h := search_rotatesOnceOn429or403 ⟨initialProxies, 0, 0⟩ 0
    "example.com".data "domain".data false 429 "rate limited".data none
    (.throwEx []) (.throwEx []) (Or.inl rfl)
  exact ⟨h.1, by decide⟩

/-- **C7.**  An unparsable `added` date does not yield `"Unknown"`: `new
Date` produces an Invalid Date instead of throwing, so the `catch` branch
is dead and the `NaN` value falls through every comparison, rendering
`"NaN years ago"`.  For parsable dates the bucketing works as claimed
(shown here at two sample instants). -/
theorem formatDate_unparsableIsNaN :
    formatDate none 1760000000000 = "NaN years ago".data ∧
    formatDate none 1760000000000 ≠ "Unknown".data ∧
    formatDate (some 1760000000000) 1760000000000 = "Today".data ∧
    formatDate (some (1760000000000 - 3 * millisPerDay)) 1760000000000
      = "3 days ago".data := by
  refine ⟨rfl, by decide, by decide, by decide⟩

/-- Concatenation on the right with only whitespace-free text preserved:
helper equality for rebracketing `a ++ x = a ++ y` from `x = y`. -/
theorem append_congr_right {a x y : Str} (h : x = y) : a ++ x = a ++ y := by
  rw [h]

/-- **C8.**  `extractPreview` never answers the empty string; blank or
missing contents yield the fixed "preview unavailable" message; non-blank
contents of at most 300 characters come back trimmed with no continuation
marker; contents longer than 300 characters are truncated to the first
300 characters (trimmed) with the continuation marker appended. -/
theorem extractPreview_spec (c : Str) :
    extractPreview c ≠ [] ∧
    ((c = [] ∨ jsTrim c = []) → extractPreview c = previewUnavailableMsg) ∧
    (jsTrim c ≠ [] → c.length ≤ 300 → extractPreview c = jsTrim c) ∧
    (jsTrim c ≠ [] → 300 < c.length →
      extractPreview c = jsTrim (c.take 300) ++ previewContinuation) := by
  by_cases hc : c = [] ∨ (jsTrim c).length = 0
  · have hmsg : extractPreview c = previewUnavailableMsg := by
      simp only [extractPreview, if_pos hc]
    have hts : jsTrim c = [] := by
      rcases hc with h | h
      · rw [h]; rfl
      · exact List.length_eq_zero.mp h
    exact ⟨by rw [hmsg]; decide, fun _ => hmsg,
      fun ht _ => absurd hts ht, fun ht _ => absurd hts ht⟩
  · have hts : jsTrim c ≠ [] := fun h0 => hc (Or.inr (by rw [h0]; rfl))
    have hc' : ¬ (c = [] ∨ jsTrim c = []) := fun h =>
      hc (h.imp id (fun he => by rw [he]; rfl))
    by_cases hlen : c.length ≤ 300
    · have hnot : ¬ 300 < c.length := by omega
      have heq : extractPreview c = jsTrim c := by
        simp only [extractPreview, if_neg hc, if_neg hnot,
          List.take_of_length_le hlen, List.append_nil]
      exact ⟨heq ▸ hts, fun h => absurd h hc', fun _ _ => heq,
        fun _ h => absurd h hnot⟩
    · have h300 : 300 < c.length := by omega
      have heq : extractPreview c = jsTrim (c.take 300) ++ previewContinuation := by
        simp only [extractPreview, if_neg hc, if_pos h300]
      refine ⟨?_, fun h => absurd h hc', fun _ hle => absurd hle hlen,
        fun _ _ => heq⟩
      rw [heq]
      intro hnil
      exact absurd (List.append_eq_nil.mp hnil).2 (by decide)

set_option maxRecDepth 10000 in
/-- Witness for C8: the empty contents give the unavailable message; a short
string comes back trimmed without marker; a 301-character string is
truncated with the marker appended. -/
theorem extractPreview_spec_witness :
    extractPreview [] = previewUnavailableMsg ∧
    extractPreview "abc".data = jsTrim "abc".data ∧
    extractPreview (List.replicate 301 'a')
      = jsTrim ((List.replicate 301 'a').take 300) ++ previewContinuation :=
  ⟨(extractPreview_spec []).2.1 (Or.inl rfl),
    (extractPreview_spec "abc".data).2.2.1 (by decide) (by decide),
    (extractPreview_spec (List.replicate 301 'a')).2.2.2 (by decide) (by decide)⟩

/-- **C10.**  Because `formatDate` takes `Math.abs` of the difference, a
parsable timestamp in the future is reported as elapsed time in the past:
less than 24 hours ahead gives `"Today"`; in general a future timestamp
is formatted exactly like the past timestamp at the same distance; and
the output is always `"Today"` or a phrase ending in `" ago"` — never a
future date. -/
theorem formatDate_futureAsElapsed (t now : Int) (h : now < t) :
    (t - now < millisPerDay → formatDate (some t) now = "Today".data) ∧
    formatDate (some t) now = formatDate (some (now - (t - now))) now ∧
    (formatDate (some t) now = "Today".data ∨
      ∃ a : Str, formatDate (some t) now = a ++ " ago".data) := by
  refine ⟨?_, ?_, ?_⟩
  · intro hlt
    have h1 : t - now < 86400000 := by
      have : millisPerDay = 86400000 := by norm_num [millisPerDay]
      omega
    have hd : (now - t).natAbs / (1000 * 60 * 60 * 24) = 0 :=
      Nat.div_eq_of_lt (by omega)
    simp [formatDate, hd]
  · have hsym : (now - t).natAbs = (now - (now - (t - now))).natAbs := by omega
    simp only [formatDate]
    rw [hsym]
  · simp only [formatDate]
    repeat' split
    · exact Or.inl rfl
    · exact Or.inr ⟨"1 day".data, by decide⟩
    · exact Or.inr ⟨natStr _ ++ " days".data,
        by rw [List.append_assoc]; exact append_congr_right (by decide)⟩
    · exact Or.inr ⟨natStr _ ++ " weeks".data,
        by rw [List.append_assoc]; exact append_congr_right (by decide)⟩
    · exact Or.inr ⟨natStr _ ++ " months".data,
        by rw [List.append_assoc]; exact append_congr_right (by decide)⟩
    · exact Or.inr ⟨natStr _ ++ " years".data,
        by rw [List.append_assoc]; exact append_congr_right (by decide)⟩

/-- Witness for C10: one hour in the future is reported as `"Today"`. -/
theorem formatDate_futureAsElapsed_witness :
    (0 : Int) < 3600000 ∧ formatDate (some 3600000) 0 = "Today".data :=
  ⟨by decide, (formatDate_futureAsElapsed 3600000 0 (by decide)).1 (by decide)⟩

/-- A row of the crypto-payments store as the `/api/crypto/verify-payment`
handler reads it: owner, status, expiry, and the stored processor
transaction id. -/
structure PaymentRec where
  id : String
  userId : String
  status : String
  expiresAt : Int
  transactionHash : Option String
deriving DecidableEq, Repr

/-- The slice of a CoinPayments `get_tx_info` answer the handler consults:
the numeric status (≥ 1 = confirmed, -1 = cancelled / timed out). -/
structure TxInfo where
  status : Int
  statusText : String
deriving DecidableEq, Repr

/-- The HTTP responses `/api/crypto/verify-payment` can produce. -/
inductive VerifyResponse where
  | badRequest (msg : String)
  | notFound (msg : String)
  | forbidden (msg : String)
  | okConfirmed (subscriptionExpiresAt : Int)
  | okPending (msg : String)
  | serverError (msg : String)
deriving DecidableEq, Repr

/-- One run of the verify-payment handler: the response plus the storage
writes it issued — `updateCryptoPaymentStatus` calls as
`(paymentId, newStatus, txHash?)` triples and `updateSubscriptionStatus`
calls as `(userId, newExpiry)` pairs (the status written is always
`'active'`). -/
structure VerifyOut where
  response : VerifyResponse
  paymentUpdates : List (String × String × Option String)
  subscriptionUpdates : List (String × Int)
deriving DecidableEq, Repr

/-- The `/api/crypto/verify-payment` handler (`server/routes.ts` lines
446-546), as a function of the request body (`paymentId`, `txHash`), the
looked-up payment row, the evaluation time, whether CoinPayments is
configured, and the outcome of `getTransactionInfo` (`Except.error` = the
call threw).  Source order: missing `paymentId` → 400; missing payment →
404; foreign payment → 403; **already-confirmed payment → 400 with no
writes**; expired payment → mark expired, 400; CoinPayments path: status
≥ 1 confirms the payment and extends the subscription to now + 30 days,
status = -1 expires it, otherwise "not yet received"; fallback path: a
manual transaction hash of at least 10 characters confirms and extends
the same way. -/
def verifyPaymentHandler (userId : String) (paymentId : Option String)
    (txHash : Option String) (payment : Option PaymentRec) (now : Int)
    (coinConfigured : Bool) (txInfo : Except String TxInfo) : VerifyOut :=
  match paymentId with
  | none => ⟨.badRequest "Payment ID is required", [], []⟩
  | some pid =>
      match payment with
      | none => ⟨.notFound "Payment not found", [], []⟩
      | some p =>
          if p.userId ≠ userId then
            ⟨.forbidden "Payment does not belong to user", [], []⟩
          else if p.status = "confirmed" then
            ⟨.badRequest "Payment already confirmed", [], []⟩
          else if p.expiresAt < now then
            ⟨.badRequest "Payment has expired", [(pid, "expired", none)], []⟩
          else if coinConfigured ∧ p.transactionHash.isSome then
            match txInfo with
            | .error _ =>
                ⟨.serverError "Failed to verify payment with CoinPayments", [], []⟩
            | .ok info =>
                if 1 ≤ info.status then
                  ⟨.okConfirmed (now + 30 * millisPerDay),
                    [(pid, "confirmed", p.transactionHash)],
                    [(userId, now + 30 * millisPerDay)]⟩
                else if info.status = -1 then
                  ⟨.badRequest "Payment was cancelled or timed out",
                    [(pid, "expired", none)], []⟩
                else ⟨.okPending "Payment not yet received", [], []⟩
          else
            match txHash with
            | none =>
                ⟨.badRequest "Transaction hash is required for manual verification",
                  [], []⟩
            | some h =>
                if h.length < 10 then
                  ⟨.badRequest "Transaction hash is required for manual verification",
                    [], []⟩
                else
                  ⟨.okConfirmed (now + 30 * millisPerDay),
                    [(pid, "confirmed", some h)],
                    [(userId, now + 30 * millisPerDay)]⟩

/-- **C9.**  Confirming an already-confirmed intent is rejected with the
400 "Payment already confirmed" error and has no further effect: the
handler issues no payment-status write and no subscription write,
whatever the processor configuration, the reported transaction info, or
the submitted hash. -/
theorem verifyPayment_confirmedIsRejected (userId pid : String)
    (txHash : Option String) (p : PaymentRec) (now : Int)
    (coinConfigured : Bool) (txInfo : Except String TxInfo)
    (hown : p.userId = userId) (hconf : p.status = "confirmed") :
    verifyPaymentHandler userId (some pid) txHash (some p) now coinConfigured txInfo
      = ⟨.badRequest "Payment already confirmed", [], []⟩ := by
  simp [verifyPaymentHandler, hown, hconf]

/-- Witness for C9: a concrete confirmed payment, in the configured
CoinPayments mode with a processor answer that would otherwise confirm;
still rejected with no writes. -/
theorem verifyPayment_confirmedIsRejected_witness :
    verifyPaymentHandler "u1" (some "pay1") (some "abcdef0123456789")
        (some { id := "pay1", userId := "u1", status := "confirmed",
                expiresAt := 2000000, transactionHash := some "tx1" })
        1000000 true (.ok { status := 100, statusText := "Payment Complete" })
      = ⟨.badRequest "Payment already confirmed", [], []⟩ :=
  verifyPayment_confirmedIsRejected "u1" "pay1" (some "abcdef0123456789")
    { id := "pay1", userId := "u1", status := "confirmed",
      expiresAt := 2000000, transactionHash := some "tx1" }
    1000000 true (.ok { status := 100, statusText := "Payment Complete" })
    rfl rfl
